import Mathlib

/-!
Verification of the go-nativeclipboard clipboard library.

The Go sources are shallowly embedded: each backend operation becomes a pure
Lean function over an explicit environment record describing the results of
the native calls it performs (display connections, selection-notify events,
property fetches, pasteboard calls, pipe reads, ...).  Go byte slices are
modelled as `Option (List Nat)` where `none` is the nil slice, Go errors as
an inductive `GoError` mirroring the package's sentinel errors plus
`fmt.Errorf` wrapping, and X11 atoms as distinct natural-number constants
(mirroring the X server's interning of distinct names).
-/

namespace NativeClipboard

/-- Go byte slice contents. -/
abbrev Bytes := List Nat

/-- Go `[]byte` value: `none` is the nil slice, `some l` a non-nil slice. -/
abbrev GoBytes := Option Bytes

/-- Underlying bytes of a Go slice (`nil` and empty read the same bytes). -/
def goBytesList : GoBytes → Bytes
  | none => []
  | some l => l

/-- `bytes.Equal`: compares contents, treating nil and empty as equal. -/
def bytesEqual (a b : GoBytes) : Bool :=
  goBytesList a == goBytesList b

/-- Go error values used by the package: the three sentinel errors declared
in the package, `fmt.Errorf("...: %w", e)` wrapping, plain `fmt.Errorf`
messages, and opaque OS-level errors (syscall / exec failures). -/
inductive GoError
  | unavailable
  | unsupported
  | unsupportedPlatform
  | wrap (msg : String) (inner : GoError)
  | plain (msg : String)
  | sys (msg : String)
deriving DecidableEq, Repr

/-- `errors.Is(e, target)` for sentinel targets: unwraps `%w` chains;
`fmt.Errorf` values and OS errors are never identical to a sentinel. -/
def errorsIs : GoError → GoError → Bool
  | .unavailable, .unavailable => true
  | .unsupported, .unsupported => true
  | .unsupportedPlatform, .unsupportedPlatform => true
  | .wrap _ inner, t => errorsIs inner t
  | _, _ => false

/-- An error is, or wraps, one of the three public error kinds. -/
def isKindError (e : GoError) : Bool :=
  errorsIs e .unavailable || errorsIs e .unsupported ||
    errorsIs e .unsupportedPlatform

/-- `Format` is an integer enumeration in the Go source (`type Format int`). -/
abbrev Format := Nat

/-- `Text Format = iota` (0). -/
def Text : Format := 0

/-- `Image` (1). -/
def Image : Format := 1

/-! ### X11 atoms

`XInternAtom` interns distinct strings to distinct nonzero atoms; the
constant `None` is 0.  The handful of atoms the engine interns are fixed
distinct constants. -/

/-- X11 `None`. -/
def NoneAtom : Nat := 0

/-- Atom for `"CLIPBOARD"`. -/
def selAtom : Nat := 1

/-- Atom for `"GOLANG_DESIGN_DATA"`, the private result property. -/
def propAtom : Nat := 2

/-- Atom for `"UTF8_STRING"`. -/
def atomString : Nat := 3

/-- Atom for `"image/png"`. -/
def atomImage : Nat := 4

/-- Atom for `"TARGETS"`. -/
def targetsAtom : Nat := 5

/-- Atom for `"ATOM"`. -/
def xaAtom : Nat := 6

/-! ### Stub backends (claim C7)

`src/unnamed/part_002` (build tag `!(darwin || linux || freebsd || windows)
|| ios || android`) and `src/clipboard_other.go` are the no-backend stubs. -/

/-- `initialize` of the stub in `src/unnamed/part_002`. -/
def stubInitialize : Option GoError := some .unsupportedPlatform

/-- `read` of the stub in `src/unnamed/part_002`: `return nil, ErrUnsupportedPlatform`. -/
def stubRead (_t : Format) : GoBytes × Option GoError :=
  (none, some .unsupportedPlatform)

/-- `write` of the stub in `src/unnamed/part_002`: `return nil, ErrUnsupportedPlatform`. -/
def stubWrite (_t : Format) (_buf : Bytes) : Option GoError :=
  some .unsupportedPlatform

/-- `initialize` of the stub in `src/clipboard_other.go`: `return ErrUnsupported`. -/
def otherInitialize : Option GoError := some .unsupported

/-- `read` of the stub in `src/clipboard_other.go`: `return nil, ErrUnsupported`. -/
def otherRead (_t : Format) : GoBytes × Option GoError :=
  (none, some .unsupported)

/-- `write` of the stub in `src/clipboard_other.go`: `return nil, ErrUnsupported`. -/
def otherWrite (_t : Format) (_buf : Bytes) : Option GoError :=
  some .unsupported

/-! ### X11 read (`readX11` in clipboard_x11.go) -/

/-- Environment for one `readX11` call: outcomes of the native X11 calls it
makes, in source order. -/
structure X11ReadEnv where
  /-- some of the 42 `XOpenDisplay` attempts returned nonzero -/
  displayOk : Bool
  /-- `XInternAtom(display, atomType, onlyIfExists=1)` returned a real atom -/
  targetExists : Bool
  /-- `sev.selection` of the received `SelectionNotify` -/
  notifySelection : Nat
  /-- `sev.property` of the received `SelectionNotify` -/
  notifyProperty : Nat
  /-- return code of `XGetWindowProperty` (`Success` = 0) -/
  getPropRet : Nat
  /-- `XGetWindowProperty` returned a NULL data pointer -/
  dataNull : Bool
  /-- `nitems` returned by `XGetWindowProperty` -/
  nitems : Nat
  /-- bytes stored at the property -/
  propData : Bytes
deriving Repr

/-- `readX11` (clipboard_x11.go): selection-convert, wait for
`SelectionNotify`, fetch the property, nil-nil on zero items. -/
def readX11 (env : X11ReadEnv) : Except GoError GoBytes :=
  if env.displayOk = false then .error .unavailable
  else if env.targetExists = false then .error .unsupported
  else if env.notifyProperty = NoneAtom ∨ env.notifySelection ≠ selAtom ∨
      env.notifyProperty ≠ propAtom then .error .unavailable
  else if env.getPropRet ≠ 0 ∨ env.dataNull = true then .error .unavailable
  else if env.nitems = 0 then .ok none
  else .ok (some (env.propData.take env.nitems))

/-! ### Cocoa read (`read` in the darwin backend) -/

/-- Environment for one Cocoa `read` call. -/
structure CocoaReadEnv where
  /-- `[NSPasteboard generalPasteboard]` returned nonzero -/
  pasteboardOk : Bool
  /-- `[pasteboard dataForType:]` returned nonzero -/
  dataPresent : Bool
  /-- `[data length]` -/
  dataLength : Nat
  /-- `[data bytes]` returned nonzero -/
  bytesOk : Bool
  /-- the pasteboard data bytes -/
  dataBytes : Bytes
deriving Repr

/-- Cocoa `read` (darwin backend): pasteboard fetch, `nil, nil` on
zero-length data. -/
def darwinRead (t : Format) (env : CocoaReadEnv) : Except GoError GoBytes :=
  if env.pasteboardOk = false then .error .unavailable
  else if t ≠ Text ∧ t ≠ Image then .error .unsupported
  else if env.dataPresent = false then .error .unavailable
  else if env.dataLength = 0 then .ok none
  else if env.bytesOk = false then .error .unavailable
  else .ok (some (env.dataBytes.take env.dataLength))

/-! ### X11 write (`write` in clipboard_x11.go)

`write` spawns a goroutine and returns `(done, nil)` for the supported
formats immediately; the goroutine opens the display, interns the atoms,
claims selection ownership, verifies it, and serves requests. -/

/-- Environment for the X11 write goroutine. -/
structure X11WriteEnv where
  /-- some of the 42 `XOpenDisplay` attempts returned nonzero -/
  displayOk : Bool
  /-- the window id returned by `XCreateSimpleWindow` -/
  window : Nat
  /-- `XGetSelectionOwner(display, sel)` read back after `XSetSelectionOwner` -/
  ownerAfterSet : Nat
deriving Repr

/-- The atom the write publishes under: `UTF8_STRING` for `Text`,
`image/png` for `Image` (both interned with `only_if_exists = 0` inside the
goroutine, so `target` is never `None` there). -/
def writtenAtom (t : Format) : Nat :=
  if t = Text then atomString else atomImage

/-- How far the detached X11 write goroutine gets. -/
inductive X11WriteTaskState
  | noDisplay
  | badTarget
  | notOwner
  | serving
deriving DecidableEq, Repr

/-- The X11 write goroutine up to the event loop: open display, resolve
`target`, claim ownership, read the owner back; each failure closes `done`
and returns, otherwise the serving event loop is entered. -/
def x11WriteTask (t : Format) (_buf : Bytes) (env : X11WriteEnv) : X11WriteTaskState :=
  if env.displayOk = false then .noDisplay
  else if writtenAtom t = NoneAtom then .badTarget
  else if env.ownerAfterSet ≠ env.window then .notOwner
  else .serving

/-- On every pre-loop exit path the goroutine executes `close(done)`. -/
def x11WriteDoneClosedEarly (t : Format) (buf : Bytes) (env : X11WriteEnv) : Bool :=
  x11WriteTask t buf env != .serving

/-- The error returned by the `write` entry itself (clipboard_x11.go): it
dispatches on the format and then returns `(done, nil)` before the goroutine
has run, so the environment never influences the returned error. -/
def x11Write (t : Format) (_buf : Bytes) (_env : X11WriteEnv) : Option GoError :=
  if t = Text ∨ t = Image then none else some .unsupported

/-! ### X11 serving loop: answering one `SelectionRequest` -/

/-- One `xChangeProperty` call made while answering a request. -/
structure PropChange where
  /-- target window property -/
  property : Nat
  /-- property type atom -/
  typ : Nat
  /-- element width (8 for bytes, 32 for atoms) -/
  format : Nat
  /-- `nelements` -/
  nelements : Nat
  /-- the stored data: raw bytes, or atom values for a `TARGETS` answer -/
  data : List Nat
deriving DecidableEq, Repr

/-- The visible effect of handling one `SelectionRequest`. -/
structure SelReply where
  /-- the `xChangeProperty` calls performed -/
  propChanges : List PropChange
  /-- the `property` field of the `SelectionNotify` sent back -/
  notifyProperty : Nat
deriving DecidableEq, Repr

/-- The `SelectionRequest` arm of the X11 write event loop: `none` means the
request was skipped (`req.selection != sel` hits `continue`); otherwise a
notify is always sent, with the property changes performed first. -/
def handleSelectionRequest (target : Nat) (buf : Bytes)
    (reqSelection reqTarget reqProperty : Nat) : Option SelReply :=
  if reqSelection ≠ selAtom then none
  else some (
    if reqTarget = atomString ∧ target = atomString then
      { propChanges :=
          if buf.length > 0 then
            [⟨reqProperty, atomString, 8, buf.length, buf⟩] else [],
        notifyProperty := reqProperty }
    else if reqTarget = atomImage ∧ target = atomImage then
      { propChanges :=
          if buf.length > 0 then
            [⟨reqProperty, atomImage, 8, buf.length, buf⟩] else [],
        notifyProperty := reqProperty }
    else if reqTarget = targetsAtom then
      { propChanges := [⟨reqProperty, xaAtom, 32, 2, [atomString, atomImage]⟩],
        notifyProperty := reqProperty }
    else
      { propChanges := [], notifyProperty := NoneAtom })

/-- Claim C5's reading of a data-request answer: some property change of
zero length was stored for the requestor (the spec's "zero-length property
value"). -/
def answersWithZeroLengthProp (target : Nat) (buf : Bytes)
    (reqTarget reqProperty : Nat) : Bool :=
  match handleSelectionRequest target buf selAtom reqTarget reqProperty with
  | none => false
  | some r => r.propChanges.any fun pc =>
      pc.property == reqProperty && pc.nelements == 0

/-! ### Windows write (`write`, `writeText`, `writeImage` in clipboard_windows.go) -/

/-- Environment for `writeText`: results of the Win32 calls in source order. -/
structure WinWriteEnv where
  /-- `EmptyClipboard()` returned nonzero -/
  emptyOk : Bool
  /-- error from `syscall.UTF16FromString` (text) or `png.Decode` (image) -/
  convertErr : Option String
  /-- `GlobalAlloc` returned nonzero -/
  allocOk : Bool
  /-- `GlobalLock` returned nonzero -/
  lockOk : Bool
  /-- `SetClipboardData` returned nonzero -/
  setOk : Bool
deriving Repr

/-- `writeText` (clipboard_windows.go). -/
def writeText (buf : Bytes) (env : WinWriteEnv) : Option GoError :=
  if env.emptyOk = false then some (.plain "failed to clear clipboard")
  else if buf.length = 0 then none
  else match env.convertErr with
    | some m => some (.wrap "failed to convert string" (.sys m))
    | none =>
      if env.allocOk = false then some (.plain "failed to alloc global memory")
      else if env.lockOk = false then some (.plain "failed to lock global memory")
      else if env.setOk = false then some (.plain "failed to set clipboard data")
      else none

/-- `writeImage` (clipboard_windows.go). -/
def writeImage (buf : Bytes) (env : WinWriteEnv) : Option GoError :=
  if env.emptyOk = false then some (.plain "failed to clear clipboard")
  else if buf.length = 0 then none
  else match env.convertErr with
    | some m => some (.wrap "input is not PNG" (.sys m))
    | none =>
      if env.allocOk = false then some (.plain "failed to alloc global memory")
      else if env.lockOk = false then some (.plain "failed to lock global memory")
      else if env.setOk = false then some (.plain "failed to set clipboard data")
      else none

/-- The Windows `write` entry: spins until `OpenClipboard` succeeds,
dispatches on the format, and forwards the error received on `errCh`. -/
def winWrite (t : Format) (buf : Bytes) (env : WinWriteEnv) : Option GoError :=
  if t = Text then writeText buf env
  else if t = Image then writeImage buf env
  else some .unsupported

/-- The ad-hoc transport-level errors the Windows write path and the Wayland
read path can return in place of a sentinel kind: plain messages from the
Win32 calls, and `%w`-wrapped OS errors. -/
def isTransportError : GoError → Bool
  | .plain m =>
      ["failed to clear clipboard", "failed to alloc global memory",
        "failed to lock global memory", "failed to set clipboard data"].contains m
  | .wrap m (.sys _) =>
      ["failed to convert string", "input is not PNG",
        "failed to create pipe", "failed to read from pipe"].contains m
  | _ => false

/-! ### Wayland read (`readWayland` in clipboard_wayland.go) -/

/-- `waylandMimeType` / `mimeTypeForFormat`: the MIME string for a format,
`""` for unsupported formats. -/
def mimeTypeForFormat (t : Format) : String :=
  if t = Text then "text/plain;charset=utf-8"
  else if t = Image then "image/png"
  else ""

/-- Environment for one `readWayland` call. -/
structure WlReadEnv where
  /-- `initializeWayland` failure message (all its failures wrap `ErrUnavailable`) -/
  initFail : Option String
  /-- `waylandState.initialized` -/
  initialized : Bool
  /-- error from `syscall.Pipe2` -/
  pipeErr : Option String
  /-- `waylandState.currentOffer != 0` -/
  hasOffer : Bool
  /-- error from `syscall.Read` on the pipe -/
  readErr : Option String
  /-- the successful pipe reads before the zero-length terminator; the Go
  loop appends `buf[:n]` only when `n > 0`, so every chunk is nonempty -/
  chunks : List Bytes
deriving Repr

/-- `readWayland` (clipboard_wayland.go): initialize, resolve the MIME type,
open a pipe, issue `receive` on the current offer, drain the pipe.  The
accumulator starts as the nil slice and only grows by nonempty chunks, so it
stays nil exactly when no chunk arrived. -/
def readWayland (t : Format) (env : WlReadEnv) : Except GoError GoBytes :=
  match env.initFail with
  | some m => .error (.wrap m .unavailable)
  | none =>
    if env.initialized = false then .error .unavailable
    else if mimeTypeForFormat t = "" then .error .unsupported
    else match env.pipeErr with
      | some m => .error (.wrap "failed to create pipe" (.sys m))
      | none =>
        if env.hasOffer then
          match env.readErr with
          | some m => .error (.wrap "failed to read from pipe" (.sys m))
          | none =>
            if env.chunks = [] then .ok none else .ok (some env.chunks.flatten)
        else .error .unavailable

/-! ### Watch pollers

Each watch loop is embedded as a function over the serialized list of events
its `select` observes: timer ticks (carrying that tick's read result) and
the context-cancellation signal.  Events after the first observed
cancellation are never processed because the loop returns. -/

/-- Output actions of a watch goroutine on its channel. -/
inductive WOut
  | emit (b : Bytes)
  | closeCh
deriving DecidableEq, Repr

/-- Events seen by the X11 `watch` loop: a tick carries `b` from
`b, _ := read(t)` (the error is discarded). -/
inductive X11WatchEv
  | tick (b : GoBytes)
  | cancel
deriving DecidableEq, Repr

/-- The X11 `watch` loop (clipboard_x11.go): on `ctx.Done` close the channel
and return; on a tick skip nil reads, then emit iff `!bytes.Equal(last, b)`
and remember `b`. -/
def x11WatchRun (last : GoBytes) : List X11WatchEv → List WOut
  | [] => []
  | .cancel :: _ => [.closeCh]
  | .tick b :: rest =>
    match b with
    | none => x11WatchRun last rest
    | some d =>
      if bytesEqual last (some d) then x11WatchRun last rest
      else .emit d :: x11WatchRun (some d) rest

/-- `watch` (clipboard_x11.go) seeds the comparison buffer with
`last, _ := read(t)` performed at subscription time, before the loop. -/
def x11WatchOutputs (initialRead : GoBytes) (evs : List X11WatchEv) : List WOut :=
  x11WatchRun initialRead evs

/-- Events seen by the `watchWayland` loop.  A tick carries the
`readWayland` result; `interrupted` records that the context was cancelled
while the loop was blocked sending an emission (the inner
`select {case recv <- data: case <-ctx.Done: return}`). -/
inductive WlWatchEv
  | tick (r : Except GoError GoBytes) (interrupted : Bool)
  | cancel
deriving Repr

/-- The `watchWayland` loop (clipboard_wayland.go): skip errored and nil
reads; emit iff `len(last) == 0 || string(last) != string(data)`; an
emission attempt interrupted by cancellation closes the channel instead. -/
def waylandWatchRun (last : Bytes) : List WlWatchEv → List WOut
  | [] => []
  | .cancel :: _ => [.closeCh]
  | .tick r interrupted :: rest =>
    match r with
    | .error _ => waylandWatchRun last rest
    | .ok none => waylandWatchRun last rest
    | .ok (some d) =>
      if last.length = 0 ∨ last ≠ d then
        if interrupted then [.closeCh]
        else .emit d :: waylandWatchRun d rest
      else waylandWatchRun last rest

/-- Events seen by the Windows `watch` loop: a tick carries the current
`GetClipboardSequenceNumber` and the `b` from `b, _ := read(t)` that the
loop would fetch on a counter change. -/
inductive WinWatchEv
  | tick (cur : Nat) (b : GoBytes)
  | cancel
deriving DecidableEq, Repr

/-- The Windows `watch` loop (clipboard_windows.go): on a tick, if the
sequence number changed, read and emit any non-nil result, then remember the
new number. -/
def winWatchRun (cnt : Nat) : List WinWatchEv → List WOut
  | [] => []
  | .cancel :: _ => [.closeCh]
  | .tick cur b :: rest =>
    if cnt ≠ cur then
      match b with
      | some d => .emit d :: winWatchRun cur rest
      | none => winWatchRun cur rest
    else winWatchRun cnt rest

/-- The emissions in a watch output list. -/
def emitsOf (outs : List WOut) : List Bytes :=
  outs.filterMap fun o => match o with | .emit b => some b | .closeCh => none

/-- A Wayland watch event the loop skips without emitting or exiting. -/
def wlSkipped : WlWatchEv → Bool
  | .tick (.error _) _ => true
  | .tick (.ok none) _ => true
  | _ => false

/-- Whether a Wayland watch event's emission attempt was interrupted by
cancellation (the inner `select` observing `ctx.Done`). -/
def wlInterrupted : WlWatchEv → Bool
  | .tick _ i => i
  | .cancel => false

/-! ### Wayland write payload copy (claim C10)

Go slice aliasing is made explicit with a heap of numbered buffers: a slice
value is a buffer id, `make`+`copy` allocates a fresh id holding a copy of
the source contents. -/

/-- A heap of byte buffers addressed by id. -/
abbrev BufHeap := Nat → Bytes

/-- In-place mutation of one buffer (what a caller does to its own `buf`). -/
def heapUpdate (h : BufHeap) (i : Nat) (v : Bytes) : BufHeap :=
  fun j => if j = i then v else h j

/-- The engine state fields `writeWayland` stores for later `send`
callbacks. -/
structure WlEngineState where
  /-- buffer id held in `waylandState.clipboardData` (`none` = nil) -/
  clipboardData : Option Nat
  /-- `waylandState.clipboardMimeType` -/
  clipboardMimeType : String

/-- The payload-storing step of `writeWayland` (clipboard_wayland.go):
`waylandState.clipboardData = make([]byte, len(buf)); copy(waylandState.clipboardData, buf)`
— a fresh buffer receives a copy of the caller's bytes. -/
def writeWaylandStore (h : BufHeap) (bufId fresh : Nat) (mime : String) :
    BufHeap × WlEngineState :=
  (heapUpdate h fresh (h bufId),
   { clipboardData := some fresh, clipboardMimeType := mime })

/-- `sourceHandleSend` (clipboard_wayland.go): the bytes written to the
requester's descriptor are exactly `waylandState.clipboardData` (nothing is
written when it is nil). -/
def sourceHandleSendBytes (h : BufHeap) (st : WlEngineState) : Option Bytes :=
  match st.clipboardData with
  | none => none
  | some i => some (h i)

/-! ### Global serialization lock (claim C3)

Modelled from the spec: the package's public entry points and the
process-wide mutex live in `clipboard.go`, which is not among the provided
sources; spec section 4.5 says "A single process-wide mutual-exclusion gate
wraps every read and every write entry point ... The lock is acquired for
the duration of one read or one write call and released before returning."
An entry call is a sequence acquire-work-release, concurrency is an
interleaving of two such sequences, and the mutex blocks an acquire while
the lock is held. -/

/-- An atomic step of an entry call, tagged with its caller id. -/
inductive LockEvent
  | acquire (tid : Nat)
  | work (tid : Nat)
  | release (tid : Nat)
deriving DecidableEq, Repr

/-- Modelled from the spec: one public read or write entry call by caller
`t` doing `m` backend steps - it takes the global lock on entry and releases
it before returning. -/
def entrySeq (t : Nat) (m : Nat) : List LockEvent :=
  .acquire t :: List.replicate m (.work t) ++ [.release t]

/-- Mutex semantics: an `acquire` can fire only while no one holds the lock;
`work` does not consult the lock; `release` frees it. -/
def mutexRun (holder : Option Nat) : List LockEvent → Bool
  | [] => true
  | .acquire t :: rest => holder == none && mutexRun (some t) rest
  | .work _ :: rest => mutexRun holder rest
  | .release _ :: rest => mutexRun none rest

/-- `Interleave as bs cs`: `cs` is an order-preserving merge of `as` and
`bs` (the scheduler's choice of execution order for two concurrent calls). -/
inductive Interleave : List LockEvent → List LockEvent → List LockEvent → Prop
  | nil : Interleave [] [] []
  | left {a as bs cs} : Interleave as bs cs → Interleave (a :: as) bs (a :: cs)
  | right {b as bs cs} : Interleave as bs cs → Interleave as (b :: bs) (b :: cs)

/-! ## Theorems -/

/-- C7 counterexample: in the `clipboard_other.go` stub, `read` fails with
`ErrUnsupported`, which does not satisfy `errors.Is(err, ErrUnsupportedPlatform)`
— so not every no-backend stub operation fails with `UnsupportedPlatform`. -/
theorem stub_platform_counterexample :
    (otherRead Text).2 = some GoError.unsupported ∧
    errorsIs GoError.unsupported GoError.unsupportedPlatform = false :=
  ⟨rfl, rfl⟩

/-- C7 (amended): in the stub backend of `src/unnamed/part_002`, initialize,
read and write all fail with `UnsupportedPlatform`, which is distinct from
`Unavailable` and from `Unsupported`; in the `clipboard_other.go` stub the
same operations instead fail with `Unsupported`. -/
theorem stub_platform_errors :
    stubInitialize = some GoError.unsupportedPlatform ∧
    (stubRead Text).2 = some GoError.unsupportedPlatform ∧
    stubWrite Text [116] = some GoError.unsupportedPlatform ∧
    errorsIs GoError.unsupportedPlatform GoError.unavailable = false ∧
    errorsIs GoError.unsupportedPlatform GoError.unsupported = false ∧
    otherInitialize = some GoError.unsupported ∧
    (otherRead Text).2 = some GoError.unsupported ∧
    otherWrite Text [116] = some GoError.unsupported := by
  refine ⟨rfl, rfl, rfl, rfl, rfl, rfl, rfl, rfl⟩

/-- C6: when the property fetch succeeds with zero items (X11) or the
pasteboard data has length zero (Cocoa), read returns the empty (nil)
payload with no error — not `Unavailable` or `Unsupported`. -/
theorem read_empty_is_success (envX : X11ReadEnv) (envC : CocoaReadEnv)
    (t : Format)
    (hd : envX.displayOk = true) (ht : envX.targetExists = true)
    (hsel : envX.notifySelection = selAtom)
    (hprop : envX.notifyProperty = propAtom)
    (hret : envX.getPropRet = 0) (hdata : envX.dataNull = false)
    (hn : envX.nitems = 0)
    (hp : envC.pasteboardOk = true) (htc : t = Text ∨ t = Image)
    (hdp : envC.dataPresent = true) (hl : envC.dataLength = 0) :
    readX11 envX = .ok none ∧ darwinRead t envC = .ok none := by
  constructor
  · unfold readX11
    rw [hd, ht, hsel, hprop, hret, hdata, hn]
    simp [selAtom, propAtom, NoneAtom]
  · unfold darwinRead
    rw [hp, hdp, hl]
    rcases htc with h | h <;> subst h <;> simp [Text, Image]

/-- Witness for `read_empty_is_success` at concrete environments. -/
theorem read_empty_is_success_witness :
    readX11 ⟨true, true, selAtom, propAtom, 0, false, 0, []⟩ = .ok none ∧
    darwinRead Text ⟨true, true, 0, true, []⟩ = .ok none :=
  read_empty_is_success ⟨true, true, selAtom, propAtom, 0, false, 0, []⟩
    ⟨true, true, 0, true, []⟩ Text rfl rfl rfl rfl rfl rfl rfl rfl
    (Or.inl rfl) rfl rfl

/-- C1 counterexample: an environment where the display opens but the
read-back selection owner (11) is not the writer's window (10) — ownership
was not granted, the goroutine stops before the serving loop, yet `write`
still returns no error, so the Write call did not fail and a nil error does
not imply ownership. -/
theorem x11_write_owner_counterexample :
    x11WriteTask Text [104] ⟨true, 10, 11⟩ = .notOwner ∧
    x11Write Text [104] ⟨true, 10, 11⟩ = none := by
  constructor
  · rfl
  · rfl

/-- C1 (amended): in the X11 write flow, if ownership is not granted after
claiming it, the detached goroutine exits without entering the serving loop
and closes the completion channel; but the `write` call itself returns a nil
error for every supported format regardless, so the absence of an error does
not establish ownership. -/
theorem x11_write_owner (t : Format) (buf : Bytes) (env : X11WriteEnv)
    (hsupp : t = Text ∨ t = Image)
    (hd : env.displayOk = true) (hown : env.ownerAfterSet ≠ env.window) :
    x11WriteTask t buf env = .notOwner ∧
    x11WriteDoneClosedEarly t buf env = true ∧
    x11Write t buf env = none := by
  have htask : x11WriteTask t buf env = .notOwner := by
    unfold x11WriteTask
    rw [hd]
    rcases hsupp with h | h <;> subst h <;>
      simp [writtenAtom, Text, Image, atomString, atomImage, NoneAtom, hown]
  refine ⟨htask, ?_, ?_⟩
  · unfold x11WriteDoneClosedEarly
    rw [htask]
    rfl
  · unfold x11Write
    rcases hsupp with h | h <;> subst h <;> simp [Text, Image]

/-- Witness for `x11_write_owner` at a concrete environment. -/
theorem x11_write_owner_witness :
    x11WriteTask Image [1] ⟨true, 10, 11⟩ = .notOwner ∧
    x11WriteDoneClosedEarly Image [1] ⟨true, 10, 11⟩ = true ∧
    x11Write Image [1] ⟨true, 10, 11⟩ = none :=
  x11_write_owner Image [1] ⟨true, 10, 11⟩ (Or.inr rfl) rfl (by decide)

/-- C5 counterexample: a request for the written format's target after an
empty write is answered (the notify names the requested property 7, it is
not dropped and not refused with `None`), but no `xChangeProperty` call is
made at all — the answer does not carry a zero-length property value. -/
theorem x11_empty_write_counterexample :
    answersWithZeroLengthProp atomString [] atomString 7 = false ∧
    handleSelectionRequest atomString [] selAtom atomString 7 =
      some { propChanges := [], notifyProperty := 7 } := by
  constructor
  · rfl
  · rfl

/-- C5 (amended): an empty X11 write is a valid write — it still claims
selection ownership exactly as a nonempty one (the pre-loop path never
inspects the payload) and still answers `TARGETS`; a data request for the
written format's target is answered with a notify naming the requested
property (neither failed with `None` nor ignored), but with no property
value stored rather than a zero-length one. -/
theorem x11_empty_write (t : Format) (env : X11WriteEnv) (buf : Bytes)
    (reqProp : Nat) (hsupp : t = Text ∨ t = Image) (hrp : reqProp ≠ NoneAtom) :
    x11WriteTask t [] env = x11WriteTask t buf env ∧
    handleSelectionRequest (writtenAtom t) [] selAtom targetsAtom reqProp =
      some { propChanges := [⟨reqProp, xaAtom, 32, 2, [atomString, atomImage]⟩],
             notifyProperty := reqProp } ∧
    (∃ r, handleSelectionRequest (writtenAtom t) [] selAtom (writtenAtom t) reqProp
        = some r ∧ r.propChanges = [] ∧ r.notifyProperty = reqProp ∧
        r.notifyProperty ≠ NoneAtom) := by
  refine ⟨rfl, ?_, ?_⟩
  · rcases hsupp with h | h <;> subst h <;>
      simp [handleSelectionRequest, writtenAtom, Text, Image, selAtom,
        atomString, atomImage, targetsAtom, xaAtom]
  · refine ⟨{ propChanges := [], notifyProperty := reqProp }, ?_, rfl, rfl, hrp⟩
    rcases hsupp with h | h <;> subst h <;>
      simp [handleSelectionRequest, writtenAtom, Text, Image, selAtom,
        atomString, atomImage, targetsAtom, xaAtom]

/-- Witness for `x11_empty_write` at concrete inputs. -/
theorem x11_empty_write_witness :
    x11WriteTask Text [] ⟨true, 10, 10⟩ = x11WriteTask Text [104] ⟨true, 10, 10⟩ ∧
    handleSelectionRequest (writtenAtom Text) [] selAtom targetsAtom 7 =
      some { propChanges := [⟨7, xaAtom, 32, 2, [atomString, atomImage]⟩],
             notifyProperty := 7 } ∧
    (∃ r, handleSelectionRequest (writtenAtom Text) [] selAtom (writtenAtom Text) 7
        = some r ∧ r.propChanges = [] ∧ r.notifyProperty = 7 ∧
        r.notifyProperty ≠ NoneAtom) :=
  x11_empty_write Text ⟨true, 10, 10⟩ [104] 7 (Or.inl rfl) (by decide)

/-- C10: the Wayland write engine copies the caller's payload into a fresh
buffer (`make` + `copy`); mutating the caller's buffer afterwards does not
change the bytes `sourceHandleSend` later writes to a requester's
descriptor, which are exactly the bytes passed at write time. -/
theorem wayland_write_private_copy (h : BufHeap) (bufId fresh : Nat)
    (mime : String) (newContents : Bytes) (hfresh : fresh ≠ bufId) :
    sourceHandleSendBytes
      (heapUpdate (writeWaylandStore h bufId fresh mime).1 bufId newContents)
      (writeWaylandStore h bufId fresh mime).2 = some (h bufId) := by
  unfold sourceHandleSendBytes writeWaylandStore heapUpdate
  simp [hfresh]

/-- Witness for `wayland_write_private_copy` at a concrete heap. -/
theorem wayland_write_private_copy_witness :
    sourceHandleSendBytes
      (heapUpdate (writeWaylandStore (fun _ => [1, 2]) 0 1 "text/plain;charset=utf-8").1
        0 [9, 9])
      (writeWaylandStore (fun _ => [1, 2]) 0 1 "text/plain;charset=utf-8").2 =
      some ((fun _ => [1, 2] : BufHeap) 0) :=
  wayland_write_private_copy (fun _ => [1, 2]) 0 1 "text/plain;charset=utf-8"
    [9, 9] (by decide)

/-- C9: within the X11 serving loop, a request on the owned selection is
never silently dropped: `TARGETS` is answered with the offered atom list
(which contains the written format's atom), and any other target not
matching the written format's atom gets a notify whose property is `None`. -/
theorem x11_serving_requests (t : Format) (buf : Bytes) (reqTarget reqProp : Nat)
    (hsupp : t = Text ∨ t = Image) :
    (∃ r, handleSelectionRequest (writtenAtom t) buf selAtom reqTarget reqProp
        = some r) ∧
    (reqTarget = targetsAtom →
      handleSelectionRequest (writtenAtom t) buf selAtom reqTarget reqProp =
        some { propChanges := [⟨reqProp, xaAtom, 32, 2, [atomString, atomImage]⟩],
               notifyProperty := reqProp } ∧
      writtenAtom t ∈ [atomString, atomImage]) ∧
    (reqTarget ≠ writtenAtom t → reqTarget ≠ targetsAtom →
      handleSelectionRequest (writtenAtom t) buf selAtom reqTarget reqProp =
        some { propChanges := [], notifyProperty := NoneAtom }) := by
  have hsel : ¬ (selAtom ≠ selAtom) := by simp
  refine ⟨?_, ?_, ?_⟩
  · unfold handleSelectionRequest
    rw [if_neg hsel]
    exact ⟨_, rfl⟩
  · intro hT
    subst hT
    constructor
    · rcases hsupp with h | h <;> subst h <;>
        simp [handleSelectionRequest, writtenAtom, Text, Image, selAtom,
          atomString, atomImage, targetsAtom]
    · rcases hsupp with h | h <;> subst h <;>
        simp [writtenAtom, Text, Image]
  · intro hne hnt
    rcases hsupp with h | h <;> subst h <;>
      simp_all [handleSelectionRequest, writtenAtom, Text, Image, selAtom,
        atomString, atomImage, targetsAtom, NoneAtom]

/-- Witness for `x11_serving_requests` at concrete inputs. -/
theorem x11_serving_requests_witness :
    (∃ r, handleSelectionRequest (writtenAtom Text) [104] selAtom targetsAtom 7
        = some r) ∧
    (targetsAtom = targetsAtom →
      handleSelectionRequest (writtenAtom Text) [104] selAtom targetsAtom 7 =
        some { propChanges := [⟨7, xaAtom, 32, 2, [atomString, atomImage]⟩],
               notifyProperty := 7 } ∧
      writtenAtom Text ∈ [atomString, atomImage]) ∧
    (targetsAtom ≠ writtenAtom Text → targetsAtom ≠ targetsAtom →
      handleSelectionRequest (writtenAtom Text) [104] selAtom targetsAtom 7 =
        some { propChanges := [], notifyProperty := NoneAtom }) :=
  x11_serving_requests Text [104] targetsAtom 7 (Or.inl rfl)

/-- Helper: every error `writeText` can return is one of the ad-hoc
transport errors. -/
theorem writeText_error_transport (buf : Bytes) (env : WinWriteEnv)
    (e : GoError) (h : writeText buf env = some e) : isTransportError e = true := by
  unfold writeText at h
  repeat' split at h
  all_goals first
    | (injection h with h; subst h; first | decide | simp [isTransportError])
    | injection h

/-- Helper: every error `writeImage` can return is one of the ad-hoc
transport errors. -/
theorem writeImage_error_transport (buf : Bytes) (env : WinWriteEnv)
    (e : GoError) (h : writeImage buf env = some e) : isTransportError e = true := by
  unfold writeImage at h
  repeat' split at h
  all_goals first
    | (injection h with h; subst h; first | decide | simp [isTransportError])
    | injection h

/-- Helper: every error `readWayland` can return either wraps a sentinel
kind or is an ad-hoc transport error. -/
theorem readWayland_error_cases (t : Format) (env : WlReadEnv) (e : GoError)
    (h : readWayland t env = .error e) :
    isKindError e = true ∨ isTransportError e = true := by
  unfold readWayland at h
  repeat' split at h
  all_goals first
    | (injection h with h; subst h;
        first
        | (left; rfl)
        | (right; first | decide | simp [isTransportError]))
    | injection h

/-- Helper: a transport error neither is nor wraps any of the three
sentinel kinds. -/
theorem transport_not_kind (e : GoError) (he : isTransportError e = true) :
    isKindError e = false := by
  cases e with
  | plain m => rfl
  | sys m => exact absurd he (by exact Bool.false_ne_true)
  | unavailable => exact absurd he (by exact Bool.false_ne_true)
  | unsupported => exact absurd he (by exact Bool.false_ne_true)
  | unsupportedPlatform => exact absurd he (by exact Bool.false_ne_true)
  | wrap m inner =>
    cases inner with
    | sys m2 => rfl
    | unavailable => exact absurd he (by exact Bool.false_ne_true)
    | unsupported => exact absurd he (by exact Bool.false_ne_true)
    | unsupportedPlatform => exact absurd he (by exact Bool.false_ne_true)
    | plain m2 => exact absurd he (by exact Bool.false_ne_true)
    | wrap m2 inner2 => exact absurd he (by exact Bool.false_ne_true)

/-- C2 counterexample: when `EmptyClipboard` fails, the public Windows write
returns the plain error "failed to clear clipboard", which neither is nor
wraps `Unavailable`, `Unsupported` or `UnsupportedPlatform` — a
transport-level failure surfaced as a distinct error kind. -/
theorem error_kinds_counterexample :
    winWrite Text [104] ⟨false, none, true, true, true⟩ =
      some (GoError.plain "failed to clear clipboard") ∧
    isKindError (GoError.plain "failed to clear clipboard") = false := by
  exact ⟨rfl, rfl⟩

/-- C2 (amended): every error returned by the modelled public write (Windows)
and read (Wayland) paths either is/wraps one of the three kinds or is one of
the explicitly enumerated transport-level errors, and those transport errors
wrap none of the three kinds — in particular they are not wrapped into
`Unavailable`. -/
theorem public_error_kinds (t : Format) (buf : Bytes) (wenv : WinWriteEnv)
    (renv : WlReadEnv) :
    (∀ e, winWrite t buf wenv = some e →
      isKindError e = true ∨ isTransportError e = true) ∧
    (∀ e, readWayland t renv = .error e →
      isKindError e = true ∨ isTransportError e = true) ∧
    (∀ e, isTransportError e = true → isKindError e = false) := by
  refine ⟨?_, ?_, fun e he => transport_not_kind e he⟩
  · intro e h
    unfold winWrite at h
    split at h
    · exact Or.inr (writeText_error_transport buf wenv e h)
    · split at h
      · exact Or.inr (writeImage_error_transport buf wenv e h)
      · injection h with h
        subst h
        exact Or.inl rfl
  · intro e h
    exact readWayland_error_cases t renv e h

/-- Witness for `public_error_kinds`, instantiating the internal
implications at the concrete transport failures. -/
theorem public_error_kinds_witness :
    (∀ e, winWrite Text [104] ⟨false, none, true, true, true⟩ = some e →
      isKindError e = true ∨ isTransportError e = true) ∧
    (∀ e, readWayland Text ⟨none, true, some "EMFILE", true, none, []⟩ = .error e →
      isKindError e = true ∨ isTransportError e = true) ∧
    (∀ e, isTransportError e = true → isKindError e = false) :=
  public_error_kinds Text [104] ⟨false, none, true, true, true⟩
    ⟨none, true, some "EMFILE", true, none, []⟩

/-- Helper: emissions of an empty output list. -/
theorem emitsOf_nil : emitsOf [] = [] := rfl

/-- Helper: emissions of an emit-headed output list. -/
theorem emitsOf_emit (b : Bytes) (l : List WOut) :
    emitsOf (.emit b :: l) = b :: emitsOf l := rfl

/-- Helper: emissions of a close-headed output list. -/
theorem emitsOf_close (l : List WOut) : emitsOf (.closeCh :: l) = emitsOf l := rfl

/-- Helper: the X11 watch loop never emits a value whose bytes equal the
current comparison buffer: the buffer's bytes followed by the emissions form
a chain of pairwise-distinct neighbours. -/
theorem x11WatchRun_chain (evs : List X11WatchEv) : ∀ last : GoBytes,
    List.Chain' (fun a b => a ≠ b)
      (goBytesList last :: emitsOf (x11WatchRun last evs)) := by
  induction evs with
  | nil => intro last; simp [x11WatchRun, emitsOf]
  | cons ev rest ih =>
    intro last
    cases ev with
    | cancel => simp [x11WatchRun, emitsOf]
    | tick b =>
      cases b with
      | none => simpa [x11WatchRun] using ih last
      | some d =>
        by_cases hb : bytesEqual last (some d) = true
        · simpa [x11WatchRun, hb] using ih last
        · have hb2 : bytesEqual last (some d) = false := by
            simpa using hb
          have hne : goBytesList last ≠ d := by
            intro hcontra
            rw [bytesEqual, hcontra] at hb2
            simp [goBytesList] at hb2
          have htail := ih (some d)
          rw [x11WatchRun]
          simp only [hb2, Bool.false_eq_true, if_false, emitsOf_emit]
          exact List.chain'_cons.mpr ⟨hne, by simpa [goBytesList] using htail⟩

/-- Helper: a prefix of skipped polls does not affect the Wayland watch
loop, and with no previous payload the first successful non-nil poll emits. -/
theorem waylandWatchRun_skip_first (pre : List WlWatchEv)
    (hpre : ∀ ev ∈ pre, wlSkipped ev = true) (d : Bytes) (rest : List WlWatchEv) :
    waylandWatchRun [] (pre ++ .tick (.ok (some d)) false :: rest) =
      .emit d :: waylandWatchRun d rest := by
  induction pre with
  | nil => simp [waylandWatchRun]
  | cons ev pre ih =>
    have hev := hpre ev (by simp)
    have ih2 := ih fun e he => hpre e (by simp [he])
    cases ev with
    | cancel => simp [wlSkipped] at hev
    | tick r i =>
      cases r with
      | error e => simpa [waylandWatchRun] using ih2
      | ok ob =>
        cases ob with
        | none => simpa [waylandWatchRun] using ih2
        | some x => simp [wlSkipped] at hev

/-- Helper: the Wayland watch loop, fed no empty non-nil reads (which
`readWayland` cannot produce), never re-emits the value it delivered last:
the current buffer (when a payload has been delivered) followed by the
emissions is a chain of pairwise-distinct neighbours. -/
theorem waylandWatchRun_chain (evs : List WlWatchEv)
    (hno : ∀ i, WlWatchEv.tick (.ok (some [])) i ∉ evs) : ∀ last : Bytes,
    List.Chain' (fun a b => a ≠ b)
      ((if last = [] then [] else [last]) ++ emitsOf (waylandWatchRun last evs)) := by
  induction evs with
  | nil =>
    intro last
    by_cases h : last = [] <;> simp [waylandWatchRun, emitsOf, h]
  | cons ev rest ih =>
    have hno2 : ∀ i, WlWatchEv.tick (.ok (some [])) i ∉ rest := by
      intro i hmem
      exact hno i (by simp [hmem])
    intro last
    cases ev with
    | cancel =>
      by_cases h : last = [] <;> simp [waylandWatchRun, emitsOf, h]
    | tick r i =>
      cases r with
      | error e => simpa [waylandWatchRun] using ih hno2 last
      | ok ob =>
        cases ob with
        | none => simpa [waylandWatchRun] using ih hno2 last
        | some d =>
          have hd : d ≠ [] := by
            intro hcontra
            subst hcontra
            exact hno i (by simp)
          by_cases hg : last.length = 0 ∨ last ≠ d
          · rw [waylandWatchRun]
            rw [if_pos hg]
            cases i with
            | true =>
              by_cases h : last = [] <;> simp [emitsOf, h]
            | false =>
              have htail := ih hno2 d
              rw [if_neg hd] at htail
              rw [if_neg Bool.false_ne_true, emitsOf_emit]
              by_cases h : last = []
              · simpa [h] using htail
              · rw [if_neg h]
                have hlne : last ≠ d := by
                  rcases hg with hg | hg
                  · intro hcontra
                    subst hcontra
                    exact h (List.length_eq_zero.mp hg)
                  · exact hg
                exact List.chain'_cons.mpr ⟨hlne, by simpa using htail⟩
          · rw [waylandWatchRun]
            rw [if_neg hg]
            exact ih hno2 last

/-- Helper: `readWayland` can never return a non-nil empty payload: the
accumulator only grows by the nonempty pipe chunks. -/
theorem readWayland_ne_empty_some (t : Format) (env : WlReadEnv)
    (hch : ∀ c ∈ env.chunks, c ≠ []) :
    readWayland t env ≠ .ok (some []) := by
  unfold readWayland
  intro h
  repeat' split at h
  all_goals try cases h
  rename_i hne
  injection h with h
  injection h with h
  rcases hc : env.chunks with _ | ⟨c, cs⟩
  · exact hne hc
  · have hcne := hch c (by rw [hc]; simp)
    rw [hc] at h
    rcases hc2 : c with _ | ⟨x, xs⟩
    · exact hcne hc2
    · rw [hc2] at h
      simp at h

/-- C4 counterexample: in the X11 watch, the comparison buffer is seeded by
a read performed at subscription time (`last, _ := read(t)`), so a very
first non-nil polled read equal to that initial content produces no
emission — the first non-nil polled read does not always emit. -/
theorem watch_first_poll_counterexample :
    x11WatchOutputs (some [97]) [.tick (some [97])] = [] ∧
    (some [97] : GoBytes) ≠ none := by
  exact ⟨rfl, by decide⟩

/-- C4 (amended): each polled result is compared byte-for-byte against the
loop's comparison buffer and a result equal to the last delivered payload is
never re-emitted (the buffer's bytes followed by the emissions are pairwise
distinct neighbours, in both the X11 and Wayland pollers, the latter given
that no poll returns a non-nil empty payload — which `readWayland` cannot
produce).  In the Wayland poller the buffer starts with no previous payload
and the first successful non-nil polled read always emits; in the X11 poller
the buffer is seeded from a read performed at subscription time, and the
first non-nil polled read emits if and only if it differs from that
subscription-time content. -/
theorem watch_dedup (initX : GoBytes) (evsX restX : List X11WatchEv)
    (d dw : Bytes) (pre restW evsW : List WlWatchEv)
    (hpre : ∀ ev ∈ pre, wlSkipped ev = true)
    (hno : ∀ i, WlWatchEv.tick (.ok (some [])) i ∉ evsW) :
    List.Chain' (fun a b => a ≠ b)
      (goBytesList initX :: emitsOf (x11WatchOutputs initX evsX)) ∧
    (bytesEqual initX (some d) = false →
      x11WatchOutputs initX (.tick (some d) :: restX) =
        .emit d :: x11WatchRun (some d) restX) ∧
    (bytesEqual initX (some d) = true →
      x11WatchOutputs initX (.tick (some d) :: restX) =
        x11WatchRun initX restX) ∧
    waylandWatchRun [] (pre ++ .tick (.ok (some dw)) false :: restW) =
      .emit dw :: waylandWatchRun dw restW ∧
    List.Chain' (fun a b => a ≠ b) (emitsOf (waylandWatchRun [] evsW)) := by
  refine ⟨x11WatchRun_chain evsX initX, ?_, ?_,
    waylandWatchRun_skip_first pre hpre dw restW, ?_⟩
  · intro hb
    rw [x11WatchOutputs, x11WatchRun]
    simp [hb]
  · intro hb
    rw [x11WatchOutputs, x11WatchRun]
    simp [hb]
  · simpa using waylandWatchRun_chain evsW hno []

/-- Witness for `watch_dedup` at concrete traces. -/
theorem watch_dedup_witness :
    List.Chain' (fun a b => a ≠ b)
      (goBytesList (some [97]) ::
        emitsOf (x11WatchOutputs (some [97]) [.tick (some [98])])) ∧
    (bytesEqual (some [97]) (some [98]) = false →
      x11WatchOutputs (some [97]) [.tick (some [98])] =
        .emit [98] :: x11WatchRun (some [98]) []) ∧
    (bytesEqual (some [97]) (some [98]) = true →
      x11WatchOutputs (some [97]) [.tick (some [98])] =
        x11WatchRun (some [97]) []) ∧
    waylandWatchRun []
        ([.tick (.error .unavailable) false] ++ .tick (.ok (some [99])) false :: []) =
      .emit [99] :: waylandWatchRun [99] [] ∧
    List.Chain' (fun a b => a ≠ b)
      (emitsOf (waylandWatchRun [] [.tick (.ok (some [99])) false, .cancel])) :=
  watch_dedup (some [97]) [.tick (some [98])] [] [98] [99]
    [.tick (.error .unavailable) false] []
    [.tick (.ok (some [99])) false, .cancel]
    (by intro ev hev; simp at hev; subst hev; rfl)
    (by intro i; simp)

/-- Helper: the X11 watch loop's output is all emissions, with a single
terminal channel close exactly when the cancellation event is in the trace. -/
theorem x11WatchRun_cancel_shape (evs : List X11WatchEv) : ∀ last : GoBytes,
    (X11WatchEv.cancel ∈ evs →
      ∃ es, x11WatchRun last evs = List.map WOut.emit es ++ [WOut.closeCh]) ∧
    (X11WatchEv.cancel ∉ evs → WOut.closeCh ∉ x11WatchRun last evs) := by
  induction evs with
  | nil =>
    intro last
    refine ⟨fun hmem => absurd hmem (by simp), fun _ => by simp [x11WatchRun]⟩
  | cons ev rest ih =>
    intro last
    cases ev with
    | cancel =>
      refine ⟨fun _ => ⟨[], by simp [x11WatchRun]⟩,
        fun hmem => absurd (by simp) hmem⟩
    | tick b =>
      constructor
      · intro hmem
        have hmem2 : X11WatchEv.cancel ∈ rest := by
          rcases List.mem_cons.mp hmem with h | h
          · cases h
          · exact h
        cases b with
        | none => simpa [x11WatchRun] using (ih last).1 hmem2
        | some d =>
          by_cases hb : bytesEqual last (some d) = true
          · simpa [x11WatchRun, hb] using (ih last).1 hmem2
          · obtain ⟨es, hes⟩ := (ih (some d)).1 hmem2
            refine ⟨d :: es, ?_⟩
            rw [x11WatchRun]
            simp only [eq_false_of_ne_true hb, Bool.false_eq_true, if_false]
            simp [hes]
      · intro hmem
        have hmem2 : X11WatchEv.cancel ∉ rest := fun h => hmem (by simp [h])
        cases b with
        | none => simpa [x11WatchRun] using (ih last).2 hmem2
        | some d =>
          by_cases hb : bytesEqual last (some d) = true
          · simpa [x11WatchRun, hb] using (ih last).2 hmem2
          · rw [x11WatchRun]
            simp only [eq_false_of_ne_true hb, Bool.false_eq_true, if_false]
            simpa using (ih (some d)).2 hmem2

/-- Helper: the Windows watch loop's output is all emissions, with a single
terminal channel close exactly when the cancellation event is in the trace. -/
theorem winWatchRun_cancel_shape (evs : List WinWatchEv) : ∀ cnt : Nat,
    (WinWatchEv.cancel ∈ evs →
      ∃ es, winWatchRun cnt evs = List.map WOut.emit es ++ [WOut.closeCh]) ∧
    (WinWatchEv.cancel ∉ evs → WOut.closeCh ∉ winWatchRun cnt evs) := by
  induction evs with
  | nil =>
    intro cnt
    refine ⟨fun hmem => absurd hmem (by simp), fun _ => by simp [winWatchRun]⟩
  | cons ev rest ih =>
    intro cnt
    cases ev with
    | cancel =>
      refine ⟨fun _ => ⟨[], by simp [winWatchRun]⟩,
        fun hmem => absurd (by simp) hmem⟩
    | tick cur b =>
      constructor
      · intro hmem
        have hmem2 : WinWatchEv.cancel ∈ rest := by
          rcases List.mem_cons.mp hmem with h | h
          · cases h
          · exact h
        by_cases hc : cnt ≠ cur
        · cases b with
          | none => simpa [winWatchRun, hc] using (ih cur).1 hmem2
          | some d =>
            obtain ⟨es, hes⟩ := (ih cur).1 hmem2
            refine ⟨d :: es, ?_⟩
            rw [winWatchRun, if_pos hc]
            simp [hes]
        · simpa [winWatchRun, hc] using (ih cnt).1 hmem2
      · intro hmem
        have hmem2 : WinWatchEv.cancel ∉ rest := fun h => hmem (by simp [h])
        by_cases hc : cnt ≠ cur
        · cases b with
          | none => simpa [winWatchRun, hc] using (ih cur).2 hmem2
          | some d =>
            rw [winWatchRun, if_pos hc]
            simpa using (ih cur).2 hmem2
        · simpa [winWatchRun, hc] using (ih cnt).2 hmem2

/-- Helper: the Wayland watch loop's output is all emissions followed by at
most one terminal channel close; the close is present whenever the
cancellation event is in the trace, and absent when the trace holds no
cancellation and no interrupted emission attempt. -/
theorem waylandWatchRun_cancel_shape (evs : List WlWatchEv) : ∀ last : Bytes,
    (WlWatchEv.cancel ∈ evs →
      ∃ es, waylandWatchRun last evs = List.map WOut.emit es ++ [WOut.closeCh]) ∧
    ((∀ ev ∈ evs, ev ≠ WlWatchEv.cancel ∧ wlInterrupted ev = false) →
      WOut.closeCh ∉ waylandWatchRun last evs) := by
  induction evs with
  | nil =>
    intro last
    refine ⟨fun hmem => absurd hmem (by simp), fun _ => by simp [waylandWatchRun]⟩
  | cons ev rest ih =>
    intro last
    cases ev with
    | cancel =>
      refine ⟨fun _ => ⟨[], by simp [waylandWatchRun]⟩, fun hall => ?_⟩
      exact absurd rfl (hall WlWatchEv.cancel (by simp)).1
    | tick r i =>
      constructor
      · intro hmem
        have hmem2 : WlWatchEv.cancel ∈ rest := by
          rcases List.mem_cons.mp hmem with h | h
          · cases h
          · exact h
        cases r with
        | error e => simpa [waylandWatchRun] using (ih last).1 hmem2
        | ok ob =>
          cases ob with
          | none => simpa [waylandWatchRun] using (ih last).1 hmem2
          | some d =>
            by_cases hg : last.length = 0 ∨ last ≠ d
            · rw [waylandWatchRun, if_pos hg]
              cases i with
              | true => exact ⟨[], by simp⟩
              | false =>
                obtain ⟨es, hes⟩ := (ih d).1 hmem2
                exact ⟨d :: es, by simp [hes]⟩
            · rw [waylandWatchRun, if_neg hg]
              exact (ih last).1 hmem2
      · intro hall
        have hall2 : ∀ ev ∈ rest, ev ≠ WlWatchEv.cancel ∧ wlInterrupted ev = false :=
          fun ev hev => hall ev (by simp [hev])
        have hi : i = false := (hall (WlWatchEv.tick r i) (by simp)).2
        subst hi
        cases r with
        | error e => simpa [waylandWatchRun] using (ih last).2 hall2
        | ok ob =>
          cases ob with
          | none => simpa [waylandWatchRun] using (ih last).2 hall2
          | some d =>
            by_cases hg : last.length = 0 ∨ last ≠ d
            · rw [waylandWatchRun, if_pos hg, if_neg Bool.false_ne_true]
              simpa using (ih d).2 hall2
            · rw [waylandWatchRun, if_neg hg]
              exact (ih last).2 hall2

/-- C8: each watch loop closes its output channel exactly once, as the final
action after the cancellation signal is observed — every output before the
single close is an emission, nothing follows the close — and the channel is
not closed while no cancellation has been observed (for the Wayland loop,
while additionally no emission attempt was interrupted by cancellation). -/
theorem watch_cancel_closes (lastX : GoBytes) (evsX : List X11WatchEv)
    (lastW : Bytes) (evsW : List WlWatchEv) (cnt : Nat) (evsN : List WinWatchEv) :
    (X11WatchEv.cancel ∈ evsX →
      ∃ es, x11WatchRun lastX evsX = List.map WOut.emit es ++ [WOut.closeCh]) ∧
    (X11WatchEv.cancel ∉ evsX → WOut.closeCh ∉ x11WatchRun lastX evsX) ∧
    (WlWatchEv.cancel ∈ evsW →
      ∃ es, waylandWatchRun lastW evsW = List.map WOut.emit es ++ [WOut.closeCh]) ∧
    ((∀ ev ∈ evsW, ev ≠ WlWatchEv.cancel ∧ wlInterrupted ev = false) →
      WOut.closeCh ∉ waylandWatchRun lastW evsW) ∧
    (WinWatchEv.cancel ∈ evsN →
      ∃ es, winWatchRun cnt evsN = List.map WOut.emit es ++ [WOut.closeCh]) ∧
    (WinWatchEv.cancel ∉ evsN → WOut.closeCh ∉ winWatchRun cnt evsN) := by
  refine ⟨(x11WatchRun_cancel_shape evsX lastX).1,
    (x11WatchRun_cancel_shape evsX lastX).2,
    (waylandWatchRun_cancel_shape evsW lastW).1,
    (waylandWatchRun_cancel_shape evsW lastW).2,
    (winWatchRun_cancel_shape evsN cnt).1,
    (winWatchRun_cancel_shape evsN cnt).2⟩

/-- Witness for `watch_cancel_closes` at concrete traces containing a
cancellation. -/
theorem watch_cancel_closes_witness :
    (X11WatchEv.cancel ∈ [X11WatchEv.tick (some [97]), X11WatchEv.cancel] →
      ∃ es, x11WatchRun none [X11WatchEv.tick (some [97]), X11WatchEv.cancel] =
        List.map WOut.emit es ++ [WOut.closeCh]) ∧
    (X11WatchEv.cancel ∉ [X11WatchEv.tick (some [97]), X11WatchEv.cancel] →
      WOut.closeCh ∉ x11WatchRun none [X11WatchEv.tick (some [97]), X11WatchEv.cancel]) ∧
    (WlWatchEv.cancel ∈ [WlWatchEv.cancel] →
      ∃ es, waylandWatchRun [] [WlWatchEv.cancel] =
        List.map WOut.emit es ++ [WOut.closeCh]) ∧
    ((∀ ev ∈ [WlWatchEv.cancel], ev ≠ WlWatchEv.cancel ∧ wlInterrupted ev = false) →
      WOut.closeCh ∉ waylandWatchRun [] [WlWatchEv.cancel]) ∧
    (WinWatchEv.cancel ∈ [WinWatchEv.tick 5 (some [98]), WinWatchEv.cancel] →
      ∃ es, winWatchRun 4 [WinWatchEv.tick 5 (some [98]), WinWatchEv.cancel] =
        List.map WOut.emit es ++ [WOut.closeCh]) ∧
    (WinWatchEv.cancel ∉ [WinWatchEv.tick 5 (some [98]), WinWatchEv.cancel] →
      WOut.closeCh ∉ winWatchRun 4 [WinWatchEv.tick 5 (some [98]), WinWatchEv.cancel]) :=
  watch_cancel_closes none [X11WatchEv.tick (some [97]), X11WatchEv.cancel]
    [] [WlWatchEv.cancel] 4 [WinWatchEv.tick 5 (some [98]), WinWatchEv.cancel]

/-- Helper: `entrySeq` unfolded. -/
theorem entrySeq_cons (t m : Nat) :
    entrySeq t m =
      .acquire t :: (List.replicate m (.work t) ++ [.release t]) := rfl

/-- Helper: an interleaving with an empty left component is the right one. -/
theorem interleave_nil_left {bs cs : List LockEvent}
    (h : Interleave [] bs cs) : cs = bs := by
  induction cs generalizing bs with
  | nil => cases h with | nil => rfl
  | cons c cs ih =>
    cases h with
    | right h2 => rw [ih h2]

/-- Helper: running one list after the other is an interleaving. -/
theorem interleave_append (as bs : List LockEvent) :
    Interleave as bs (as ++ bs) := by
  induction as with
  | nil =>
    induction bs with
    | nil => exact .nil
    | cons b bs ih => exact .right ih
  | cons a as ih => exact .left ih

/-- Helper: interleaving is symmetric. -/
theorem interleave_comm {as bs cs : List LockEvent}
    (h : Interleave as bs cs) : Interleave bs as cs := by
  induction h with
  | nil => exact .nil
  | left h ih => exact .right ih
  | right h ih => exact .left ih

/-- Helper: work steps do not change the mutex state. -/
theorem mutexRun_replicate_work (t m : Nat) (s : Option Nat)
    (l : List LockEvent) :
    mutexRun s (List.replicate m (.work t) ++ l) = mutexRun s l := by
  induction m with
  | zero => rfl
  | succ m ih => simpa [List.replicate_succ, mutexRun] using ih

/-- Helper: while a call holds the lock, the other call's `acquire` is
blocked, so the holder's remaining steps run uninterrupted through its
`release`; only then can the other entry call run. -/
theorem interleave_locked (t t2 u n : Nat) : ∀ (k : Nat) (tr : List LockEvent),
    Interleave (List.replicate k (.work t) ++ [.release t]) (entrySeq t2 n) tr →
    mutexRun (some u) tr = true →
    tr = List.replicate k (.work t) ++ [.release t] ++ entrySeq t2 n := by
  intro k
  induction k with
  | zero =>
    intro tr h hv
    rw [entrySeq_cons] at h
    simp only [List.replicate_zero, List.nil_append] at h ⊢
    cases h with
    | @left _ _ _ cs h2 =>
      rw [← entrySeq_cons] at h2
      rw [interleave_nil_left h2]
      rfl
    | right h2 =>
      simp [mutexRun] at hv
  | succ k ih =>
    intro tr h hv
    rw [entrySeq_cons] at h
    simp only [List.replicate_succ, List.cons_append] at h ⊢
    cases h with
    | @left _ _ _ cs h2 =>
      have hv2 : mutexRun (some u) cs = true := by
        simpa [mutexRun] using hv
      rw [← entrySeq_cons] at h2
      have h3 := ih cs h2 hv2
      rw [h3]
    | right h2 =>
      simp [mutexRun] at hv

/-- C3: the process-wide mutual-exclusion gate serializes every pair of
concurrently invoked public read or write calls — any mutex-consistent
interleaving of two entry calls is one call run to completion followed by
the other, so at most one executes at a time — and each entry call holds the
gate for exactly its own duration: it takes the free lock on entry and
leaves it free on return. -/
theorem global_lock_serializes (t1 t2 m n : Nat) (tr : List LockEvent)
    (hint : Interleave (entrySeq t1 m) (entrySeq t2 n) tr)
    (hval : mutexRun none tr = true) :
    (tr = entrySeq t1 m ++ entrySeq t2 n ∨
      tr = entrySeq t2 n ++ entrySeq t1 m) ∧
    mutexRun none (entrySeq t1 m) = true := by
  constructor
  · rw [entrySeq_cons t1 m, entrySeq_cons t2 n] at hint
    cases hint with
    | @left _ _ _ cs h2 =>
      have hv2 : mutexRun (some t1) cs = true := by
        simpa [mutexRun] using hval
      rw [← entrySeq_cons t2 n] at h2
      have h3 := interleave_locked t1 t2 t1 n m cs h2 hv2
      left
      rw [entrySeq_cons t1 m, h3]
      simp
    | @right _ _ _ cs h2 =>
      have hv2 : mutexRun (some t2) cs = true := by
        simpa [mutexRun] using hval
      have hcomm := interleave_comm h2
      rw [← entrySeq_cons t1 m] at hcomm
      have h4 := interleave_locked t2 t1 t2 m n cs hcomm hv2
      right
      rw [entrySeq_cons t2 n, h4]
      simp
  · rw [entrySeq_cons]
    simp only [mutexRun, mutexRun_replicate_work]
    rfl

/-- Witness for `global_lock_serializes` at a concrete valid interleaving. -/
theorem global_lock_serializes_witness :
    ((entrySeq 1 1 ++ entrySeq 2 1 = entrySeq 1 1 ++ entrySeq 2 1 ∨
      entrySeq 1 1 ++ entrySeq 2 1 = entrySeq 2 1 ++ entrySeq 1 1) ∧
    mutexRun none (entrySeq 1 1) = true) :=
  global_lock_serializes 1 2 1 1 (entrySeq 1 1 ++ entrySeq 2 1)
    (interleave_append (entrySeq 1 1) (entrySeq 2 1)) (by decide)

end NativeClipboard
